import Mathlib

/-!
Shallow embedding of the librashader filter-chain runtime: the gl3
framebuffer (`librashader-runtime-gl/src/gl/gl3/framebuffer.rs`), the
Vulkan owned image (`librashader-runtime-vk/src/texture.rs`), and the
gl46 filter chain (`librashader-runtime-gl46/src/filter_chain.rs`), with
theorems about resize/scale, the init fallback, clear, mip-level
bookkeeping, history and the per-frame loop.

Machine integers are embedded as `Nat`; `usize` is taken to be 64 bits
wide and the `as u32` cast is an explicit `% 2^32`. External GPU calls
are represented by command lists or by oracle functions passed in as
parameters (for example the `CheckFramebufferStatus` answer, or the
fresh names returned by `GenTextures`).
-/

deriving instance DecidableEq for Except

namespace Librashader

/-- `Size<u32>`: width and height in pixels. -/
structure Size where
  width : Nat
  height : Nat
deriving DecidableEq, Repr

/-- `ImageFormat` from `librashader_common`; `unknown` is the sentinel
meaning "use the default linear RGBA8". Only the formats the claims
exercise are listed. -/
inductive ImageFormat where
  | unknown
  | r8g8b8a8Unorm
  | r8g8b8a8Srgb
deriving DecidableEq, Repr

/-- GL internal-format enum of an `ImageFormat`
(`ImageFormat::R8G8B8A8Unorm.into() == gl::RGBA8`); `unknown` maps to 0. -/
def ImageFormat.toGl : ImageFormat → Nat
  | .unknown => 0
  | .r8g8b8a8Unorm => 32856   -- gl::RGBA8 = 0x8058
  | .r8g8b8a8Srgb => 35907    -- gl::SRGB8_ALPHA8 = 0x8C43

/-- Vulkan `vk::Format` value of an `ImageFormat`. -/
def ImageFormat.toVk : ImageFormat → Nat
  | .unknown => 0
  | .r8g8b8a8Unorm => 37      -- VK_FORMAT_R8G8B8A8_UNORM
  | .r8g8b8a8Srgb => 43       -- VK_FORMAT_R8G8B8A8_SRGB

def FRAMEBUFFER_COMPLETE : Nat := 36053      -- gl::FRAMEBUFFER_COMPLETE
def FRAMEBUFFER_UNSUPPORTED : Nat := 36061   -- gl::FRAMEBUFFER_UNSUPPORTED
def GL_FRAMEBUFFER : Nat := 36160            -- gl::FRAMEBUFFER
def GL_COLOR_BUFFER_BIT : Nat := 16384       -- gl::COLOR_BUFFER_BIT
def U32_MAX : Nat := 4294967295              -- u32::MAX
def U32_MOD : Nat := 4294967296              -- 2^32, the `as u32` modulus

/-- `floor(log2 n)` by structural recursion on a fuel argument (the
number itself bounds the halving depth), so that it reduces inside the
kernel; `log2floor 0 = 0`. -/
def log2floorAux : Nat → Nat → Nat
  | 0, _ => 0
  | fuel + 1, n => if n < 2 then 0 else 1 + log2floorAux fuel (n / 2)

def log2floor (n : Nat) : Nat := log2floorAux n n

/-- Modelled from the spec: `librashader_runtime::scaling::calc_miplevel`
and `Size::calculate_miplevels` live in the `librashader-runtime` crate,
which is not under `src/`. Spec section 4.2 defines
`mipCeil(s) = 1 + floor(log2(max(s.w, s.h)))`. -/
def mipCeil (s : Size) : Nat := 1 + log2floor (max s.width s.height)

/-- The zero-dimension clamp performed by `Gl3Framebuffer::init` on its
local `size` before computing mip levels and allocating storage. -/
def clampSize (s : Size) : Size :=
  ⟨if s.width = 0 then 1 else s.width, if s.height = 0 then 1 else s.height⟩

/-- The mip-level computation of `Gl3Framebuffer::init`: start from
`calc_miplevel`, clamp down to `max_levels`, then force at least 1. -/
def glMipLevels (maxLevels : Nat) (s : Size) : Nat :=
  let m := mipCeil s
  let m := if m > maxLevels then maxLevels else m
  if m = 0 then 1 else m

/-- `GLImage` (gl3) / `GlImage` (gl46): a raw texture handle with format
and size information. -/
structure GlImage where
  handle : Nat
  format : Nat
  size : Size
  padded_size : Size
deriving DecidableEq, Repr

/-- `FilterChainError` (only the variant the embedded code produces). -/
inductive FilterChainError where
  | framebufferInit (status : Nat)
deriving DecidableEq, Repr

/-- `Gl3Framebuffer`: a managed render-target framebuffer. -/
structure Gl3Framebuffer where
  image : Nat
  handle : Nat
  size : Size
  format : Nat
  max_levels : Nat
  mip_levels : Nat
  is_raw : Bool
deriving DecidableEq, Repr

/-- `Gl3Framebuffer::new(max_levels)`; `handle` is the fresh name
returned by `GenFramebuffers`. -/
def Gl3Framebuffer.new (handle maxLevels : Nat) : Gl3Framebuffer :=
  { image := 0
  , size := ⟨1, 1⟩
  , format := 0
  , max_levels := maxLevels
  , mip_levels := 0
  , handle := handle
  , is_raw := false }

/-- `Gl3Framebuffer::new_from_raw`. -/
def Gl3Framebuffer.new_from_raw (texture handle format : Nat) (size : Size)
    (miplevels : Nat) : Gl3Framebuffer :=
  { image := texture
  , size := size
  , format := format
  , max_levels := miplevels
  , mip_levels := miplevels
  , handle := handle
  , is_raw := true }

/-- `Gl3Framebuffer::init`. `status` is the backend's
`CheckFramebufferStatus` answer as a function of the attached texture's
internal format and (clamped) storage size; `ctr` supplies the fresh
texture names returned by `GenTextures` (`ctr`, then `ctr + 1`).
Returns the updated framebuffer and the next fresh name.

On a `FRAMEBUFFER_UNSUPPORTED` status the texture is recreated with
RGBA8 storage; as in the source, the status is not checked again after
this fallback (the re-check is commented out), and the stored `format`
field keeps the originally requested format. -/
def Gl3Framebuffer.init (status : Nat → Size → Nat) (fb : Gl3Framebuffer)
    (size : Size) (format : Nat) (ctr : Nat) :
    Except FilterChainError (Gl3Framebuffer × Nat) :=
  if fb.is_raw then .ok (fb, ctr)
  else
    let csize := clampSize size
    let fb1 : Gl3Framebuffer :=
      { fb with format := format, size := size, image := ctr
              , mip_levels := glMipLevels fb.max_levels csize }
    let st := status format csize
    if st = FRAMEBUFFER_COMPLETE then .ok (fb1, ctr + 1)
    else if st = FRAMEBUFFER_UNSUPPORTED then
      .ok ({ fb1 with image := ctr + 1
                    , mip_levels := glMipLevels fb.max_levels csize }, ctr + 2)
    else .error (.framebufferInit st)

/-- `Gl3Framebuffer::scale`. `computedSize` stands for the result of the
external pure resolver `librashader_runtime::scaling::scale(scaling,
source.image.size, viewport.output.size)` (the `librashader-runtime`
crate is not under `src/`). -/
def Gl3Framebuffer.scale (status : Nat → Size → Nat) (fb : Gl3Framebuffer)
    (computedSize : Size) (format : ImageFormat) (ctr : Nat) :
    Except FilterChainError (Gl3Framebuffer × Size × Nat) :=
  if fb.is_raw then .ok (fb, fb.size, ctr)
  else if fb.size ≠ computedSize then
    match Gl3Framebuffer.init status { fb with size := computedSize }
        computedSize
        ((if format = ImageFormat.unknown then ImageFormat.r8g8b8a8Unorm
          else format).toGl) ctr with
    | .ok (fb2, c) => .ok (fb2, computedSize, c)
    | .error e => .error e
  else .ok (fb, computedSize, ctr)

/-- `Gl3Framebuffer::copy_from`: re-init when size or format differs,
then blit (the blit itself does not change the stored state). -/
def Gl3Framebuffer.copy_from (status : Nat → Size → Nat)
    (fb : Gl3Framebuffer) (image : GlImage) (ctr : Nat) :
    Except FilterChainError (Gl3Framebuffer × Nat) :=
  if image.size ≠ fb.size ∨ image.format ≠ fb.format then
    Gl3Framebuffer.init status fb image.size image.format ctr
  else .ok (fb, ctr)

/-- GL commands issued by `Gl3Framebuffer::clear`. The clear color
components are the exact f32 literals of the source, embedded as
integers. -/
inductive GlCmd where
  | bindFramebuffer (target fbo : Nat)
  | colorMask (r g b a : Bool)
  | clearColor (r g b a : Int)
  | clearBuffers (mask : Nat)
deriving DecidableEq, Repr

/-- `Gl3Framebuffer::clear::<REBIND>`. -/
def Gl3Framebuffer.clear (rebind : Bool) (fb : Gl3Framebuffer) : List GlCmd :=
  (if rebind then [GlCmd.bindFramebuffer GL_FRAMEBUFFER fb.handle] else []) ++
  [GlCmd.colorMask true true true true,
   GlCmd.clearColor 0 0 0 0,
   GlCmd.clearBuffers GL_COLOR_BUFFER_BIT] ++
  (if rebind then [GlCmd.bindFramebuffer GL_FRAMEBUFFER 0] else [])

/-- `VulkanImage`: a Vulkan image handle with size and format. -/
structure VulkanImage where
  size : Size
  image : Nat
  format : Nat
deriving DecidableEq, Repr

/-- `OwnedImage`: the Vulkan managed render-target image (device and
memory handles are elided; they are opaque driver objects). -/
structure OwnedImage where
  image_view : Nat
  image : VulkanImage
  max_miplevels : Nat
  levels : Nat
deriving DecidableEq, Repr

/-- `OwnedImage::new_internal` (success path; device allocation failures
surface as driver errors and are not modelled). `imgH` and `viewH` are
the handles returned by `create_image` and `create_image_view`.
`calculate_miplevels` is `mipCeil`, modelled from the spec. -/
def OwnedImage.new_internal (imgH viewH : Nat) (size : Size)
    (format : ImageFormat) (max_miplevels : Nat) : OwnedImage :=
  let format := if format = ImageFormat.unknown then ImageFormat.r8g8b8a8Unorm
                else format
  { image_view := viewH
  , image := { image := imgH, size := size, format := format.toVk }
  , max_miplevels := max_miplevels
  , levels := min max_miplevels (mipCeil size) }

/-- The reallocation condition of `OwnedImage::scale`. -/
def OwnedImage.scaleCond (self : OwnedImage) (size : Size) (mipmap : Bool) :
    Prop :=
  self.image.size ≠ size ∨ (mipmap = true ∧ self.max_miplevels = 1) ∨
    (mipmap = false ∧ self.max_miplevels ≠ 1)

instance (self : OwnedImage) (size : Size) (mipmap : Bool) :
    Decidable (OwnedImage.scaleCond self size mipmap) := by
  unfold OwnedImage.scaleCond; infer_instance

/-- `OwnedImage::scale`. `computedSize` stands for
`source.image.size.scale_viewport(scaling, viewport_size)`, the external
pure resolver of the `librashader-runtime` crate (not under `src/`);
`imgH`, `viewH` are the fresh handles used when reallocating. The
optional layout transition only records commands and is elided. -/
def OwnedImage.scale (imgH viewH : Nat) (self : OwnedImage)
    (computedSize : Size) (format : ImageFormat) (mipmap : Bool) :
    OwnedImage × Size :=
  let size := computedSize
  if OwnedImage.scaleCond self size mipmap then
    let maxLevels := if mipmap then U32_MAX else 1
    (OwnedImage.new_internal imgH viewH size
      (if format = ImageFormat.unknown then ImageFormat.r8g8b8a8Unorm
       else format) maxLevels, size)
  else (self, size)

/-- Vulkan layout constants used by `OwnedImage::clear`. -/
def LAYOUT_UNDEFINED : Nat := 0          -- vk::ImageLayout::UNDEFINED
def LAYOUT_SHADER_READ : Nat := 5        -- SHADER_READ_ONLY_OPTIMAL
def LAYOUT_TRANSFER_DST : Nat := 7       -- TRANSFER_DST_OPTIMAL

/-- Vulkan commands recorded by `OwnedImage::clear`. The clear color
components are the exact f32 literals of the source, embedded as
integers. -/
inductive VkCmd where
  | transition (image oldLayout newLayout : Nat)
  | clearColorImage (image : Nat) (r g b a : Int)
      (baseMip levelCount baseLayer layerCount : Nat)
deriving DecidableEq, Repr

/-- `OwnedImage::clear`. -/
def OwnedImage.clear (self : OwnedImage) : List VkCmd :=
  [ VkCmd.transition self.image.image LAYOUT_UNDEFINED LAYOUT_TRANSFER_DST
  , VkCmd.clearColorImage self.image.image 0 0 0 0 0 1 0 1
  , VkCmd.transition self.image.image LAYOUT_TRANSFER_DST LAYOUT_SHADER_READ ]

/-! ## The gl46 filter chain

The gl46 runtime's `Framebuffer` type is not under `src/`; it mirrors
the gl3 implementation that is (same fields and operations, using DSA
calls), so `Gl3Framebuffer` stands in for it below, and the operations
not observable through `src/` (`FilterPass::draw`, the framebuffer
clear) are modelled from spec sections 4.2 and 4.6 as opaque recorded
effects. -/

/-- `TextureSemantics` tags from `librashader_reflect`. -/
inductive TextureSemantics where
  | original
  | source
  | originalHistory
  | passOutput
  | passFeedback
  | user
deriving DecidableEq, Repr

/-- One reflected texture (or texture-size) binding: a semantic tag and
its index, the key set of `texture_meta` / `texture_size_meta`. -/
structure SemanticRef where
  semantics : TextureSemantics
  index : Nat
deriving DecidableEq, Repr

/-- The part of a pass's reflection the chain inspects: the keys of
`reflection.meta.texture_meta` and `reflection.meta.texture_size_meta`. -/
structure PassReflectionMeta where
  texture_meta : List SemanticRef
  texture_size_meta : List SemanticRef
deriving DecidableEq, Repr

inductive FilterMode where
  | nearest
  | linear
deriving DecidableEq, Repr

inductive WrapMode where
  | clampToBorder
  | clampToEdge
  | repeatMode
  | mirroredRepeat
deriving DecidableEq, Repr

/-- The fields of `ShaderPassConfig` the frame loop reads. -/
structure PassConfig where
  filter : FilterMode
  wrap_mode : WrapMode
  frame_count_mod : Nat        -- u32
deriving DecidableEq, Repr

/-- A built `FilterPass`: its config, reflected texture keys, and the
output format `pass.get_format()` yields. Its compiled program and
uniform state do not influence the claims and are elided. -/
structure FilterPass where
  config : PassConfig
  meta : PassReflectionMeta
  formatOut : ImageFormat
deriving DecidableEq, Repr

/-- gl46 `Texture`: an image view plus sampling state. -/
structure Texture where
  image : GlImage
  filter : FilterMode
  mip_filter : FilterMode
  wrap_mode : WrapMode
deriving DecidableEq, Repr

/-- `Gl3Framebuffer::as_texture`. -/
def Gl3Framebuffer.as_texture (fb : Gl3Framebuffer) (filter : FilterMode)
    (wrap : WrapMode) : Texture :=
  { image := { handle := fb.image, format := fb.format, size := fb.size
             , padded_size := ⟨0, 0⟩ }
  , filter := filter
  , mip_filter := filter
  , wrap_mode := wrap }

/-- `FrameOptions` (only the field `frame` reads). -/
structure FrameOptions where
  clear_history : Bool
deriving DecidableEq, Repr

/-- The caller's `Viewport`: offset plus output framebuffer (the mvp
matrix does not influence the claims and is elided). -/
structure Viewport where
  x : Nat
  y : Nat
  output : Gl3Framebuffer
deriving DecidableEq, Repr

/-- `FilterChain` (gl46): the mutable state the frame loop touches.
`history_framebuffers` is the deque with its front at the list head. -/
structure FilterChain where
  passes : List FilterPass
  passes_enabled : Nat
  output_framebuffers : List Gl3Framebuffer
  feedback_framebuffers : List Gl3Framebuffer
  history_framebuffers : List Gl3Framebuffer
  output_textures : List Texture
  feedback_textures : List Texture
  history_textures : List Texture
deriving DecidableEq, Repr

/-- GPU effects recorded by `frame`. `draw` is `FilterPass::draw`
(modelled from spec section 4.6: one quad draw into the given target,
with the reduced frame count); `clearFb` is a framebuffer clear. -/
inductive Effect where
  | clearFb (handle : Nat)
  | bindVao
  | draw (passIndex frameCount targetHandle : Nat)
  | unbindVao
deriving DecidableEq, Repr

/-- Number of `OriginalHistory` keys in a pass's `texture_meta`
(`init_history`'s `texture_count`). -/
def historyTexCount (p : FilterPass) : Nat :=
  (p.meta.texture_meta.filter
    (fun r => r.semantics == TextureSemantics.originalHistory)).length

/-- Number of `OriginalHistory` keys in a pass's `texture_size_meta`
(`init_history`'s `texture_size_count`). -/
def historyTexSizeCount (p : FilterPass) : Nat :=
  (p.meta.texture_size_meta.filter
    (fun r => r.semantics == TextureSemantics.originalHistory)).length

/-- The `required_images` accumulation of `FilterChain::init_history`. -/
def requiredImages (filters : List FilterPass) : Nat :=
  filters.foldl
    (fun acc p => max (max acc (historyTexCount p)) (historyTexSizeCount p)) 0

/-- `FilterChain::init_history`; `handles` is the first fresh
framebuffer name `GenFramebuffers` hands to `Framebuffer::new(1)`. -/
def init_history (filters : List FilterPass) (filter : FilterMode)
    (wrap : WrapMode) (handles : Nat) :
    List Gl3Framebuffer × List Texture :=
  let required := requiredImages filters
  if required ≤ 1 then ([], [])
  else
    ((List.range required).map (fun i => Gl3Framebuffer.new (handles + i) 1),
     (List.range required).map (fun _ =>
       { image := { handle := 0, format := 0, size := ⟨0, 0⟩
                  , padded_size := ⟨0, 0⟩ }
       , filter := filter, mip_filter := filter, wrap_mode := wrap }))

/-- `FilterChain::push_history`: recycle the back history framebuffer,
re-init it when the guard fires, copy the input into it, push it to the
front. -/
def FilterChain.push_history (status : Nat → Size → Nat) (c : FilterChain)
    (input : GlImage) (ctr : Nat) :
    Except FilterChainError (FilterChain × Nat) :=
  match c.history_framebuffers.getLast? with
  | none => .ok (c, ctr)
  | some back =>
    let rest := c.history_framebuffers.dropLast
    let step : Except FilterChainError (Gl3Framebuffer × Nat) :=
      if back.size ≠ input.size ∨
          (input.format ≠ 0 ∧ input.format ≠ back.format) then
        Gl3Framebuffer.init status back input.size input.format ctr
      else .ok (back, ctr)
    match step with
    | .error e => .error e
    | .ok (back1, ctr1) =>
      match Gl3Framebuffer.copy_from status back1 input ctr1 with
      | .error e => .error e
      | .ok (back2, ctr2) =>
        .ok ({ c with history_framebuffers := back2 :: rest }, ctr2)

/-- `iter_mut().zip(...)` with in-place update: elements of the first
list beyond the second's length stay unchanged. -/
def updateZip (f : Texture → Gl3Framebuffer → Texture) :
    List Texture → List Gl3Framebuffer → List Texture
  | t :: ts, fb :: fbs => f t fb :: updateZip f ts fbs
  | ts, [] => ts
  | [], _ => []

/-- The three-way zip updating `feedback_textures` from
`feedback_framebuffers` and the enabled passes. -/
def updateZip3 (f : Texture → Gl3Framebuffer → FilterPass → Texture) :
    List Texture → List Gl3Framebuffer → List FilterPass → List Texture
  | t :: ts, fb :: fbs, p :: ps => f t fb p :: updateZip3 f ts fbs ps
  | ts, [], _ => ts
  | ts, _, [] => ts
  | [], _, _ => []

/-- The frame counter handed to `FilterPass::draw`: reduce modulo
`frame_count_mod` when it is positive, then truncate `as u32`. -/
def framecountFor (m count : Nat) : Nat :=
  (if m > 0 then count % m else count) % U32_MOD

/-- A placeholder for out-of-bounds indexing (Rust would panic; the
frame loop only indexes within bounds on well-formed chains). -/
def dummyFb : Gl3Framebuffer := Gl3Framebuffer.new 0 0

/-- The rescale loop of `frame`: for each enabled pass, scale the output
and then the feedback framebuffer at that index. `resolve i src vp` is
the external scaling resolver applied to pass `i`'s scaling config
(`source` is not reassigned inside this loop in the source). -/
def rescalePasses (status : Nat → Size → Nat)
    (resolve : Nat → Size → Size → Size) (viewportSize sourceSize : Size) :
    List FilterPass → Nat → List Gl3Framebuffer → List Gl3Framebuffer →
    Nat → Except FilterChainError
      (List Gl3Framebuffer × List Gl3Framebuffer × Nat)
  | [], _, outFbs, fbFbs, ctr => .ok (outFbs, fbFbs, ctr)
  | p :: ps, i, outFbs, fbFbs, ctr =>
    let computed := resolve i sourceSize viewportSize
    match Gl3Framebuffer.scale status (outFbs.getD i dummyFb) computed
        p.formatOut ctr with
    | .error e => .error e
    | .ok (fb, _, ctr1) =>
      match Gl3Framebuffer.scale status (fbFbs.getD i dummyFb) computed
          p.formatOut ctr1 with
      | .error e => .error e
      | .ok (fb2, _, ctr2) =>
        rescalePasses status resolve viewportSize sourceSize ps (i + 1)
          (outFbs.set i fb) (fbFbs.set i fb2) ctr2

/-- The intermediate-pass loop of `frame`: draw pass `i` into
`output_framebuffers[i]`, store its view in `output_textures[i]`, and
thread it as the next `source`. Returns the draw effects, the updated
`output_textures`, and the final `source`. -/
def drawIntermediate (count : Nat) :
    List FilterPass → Nat → List Gl3Framebuffer → List Texture → Texture →
    List Effect × List Texture × Texture
  | [], _, _, outTex, src => ([], outTex, src)
  | p :: ps, i, outFbs, outTex, _source =>
    let target := outFbs.getD i dummyFb
    let eff := Effect.draw i (framecountFor p.config.frame_count_mod count)
      target.handle
    let t := target.as_texture p.config.filter p.config.wrap_mode
    let r := drawIntermediate count ps (i + 1) outFbs (outTex.set i t) t
    (eff :: r.1, r.2.1, r.2.2)

/-- The end-of-frame pairwise `mem::swap` of the whole
`output_framebuffers` and `feedback_framebuffers` slices (elementwise up
to the shorter length, leftovers unchanged). -/
def swapLists : List Gl3Framebuffer → List Gl3Framebuffer →
    List Gl3Framebuffer × List Gl3Framebuffer
  | a :: as, b :: bs =>
    let r := swapLists as bs
    (b :: r.1, a :: r.2)
  | as, [] => (as, [])
  | [], bs => ([], bs)

/-- The body of `frame` once the enabled passes are known to be the
nonempty list `p0 :: rest`; `clearEffects` are the history clears
already decided from the options. -/
def FilterChain.frameEnabled (status : Nat → Size → Nat)
    (resolve : Nat → Size → Size → Size) (c : FilterChain) (count : Nat)
    (viewport : Viewport) (input : GlImage) (clearEffects : List Effect)
    (p0 : FilterPass) (rest : List FilterPass) (ctr : Nat) :
    Except FilterChainError (FilterChain × List Effect × Nat) :=
  let filter := p0.config.filter
  let wrap := p0.config.wrap_mode
  let historyTextures :=
    updateZip (fun t fb => { t with image := (fb.as_texture filter wrap).image })
      c.history_textures c.history_framebuffers
  let feedbackTextures :=
    updateZip3 (fun t fb p =>
        { t with image := (fb.as_texture p.config.filter p.config.wrap_mode).image })
      c.feedback_textures c.feedback_framebuffers (p0 :: rest)
  let original : Texture :=
    { image := input, filter := filter, mip_filter := filter
    , wrap_mode := wrap }
  match rescalePasses status resolve viewport.output.size
      original.image.size (p0 :: rest) 0 c.output_framebuffers
      c.feedback_framebuffers ctr with
  | .error e => .error e
  | .ok (outFbs, fbFbs, ctr1) =>
    let inter := (p0 :: rest).dropLast
    let lastPass := (p0 :: rest).getLast (by simp)
    let dr := drawIntermediate count inter 0 outFbs c.output_textures original
    let finalEff := Effect.draw ((p0 :: rest).length - 1)
      (framecountFor lastPass.config.frame_count_mod count)
      viewport.output.handle
    let sw := swapLists outFbs fbFbs
    let c1 : FilterChain :=
      { c with output_framebuffers := sw.1
             , feedback_framebuffers := sw.2
             , output_textures := dr.2.1
             , feedback_textures := feedbackTextures
             , history_textures := historyTextures }
    match FilterChain.push_history status c1 input ctr1 with
    | .error e => .error e
    | .ok (c2, ctr2) =>
      .ok (c2,
        clearEffects ++ [Effect.bindVao] ++ dr.1 ++ [finalEff] ++
          [Effect.unbindVao], ctr2)

/-- `FilterChain::frame`. `status` and `resolve` are the external
backend-status oracle and scaling resolver; `ctr` supplies fresh GL
texture names. Returns the new chain state, the recorded GPU effects in
order, and the next fresh name. -/
def FilterChain.frame (status : Nat → Size → Nat)
    (resolve : Nat → Size → Size → Size) (c : FilterChain) (count : Nat)
    (viewport : Viewport) (input : GlImage) (options : Option FrameOptions)
    (ctr : Nat) :
    Except FilterChainError (FilterChain × List Effect × Nat) :=
  let passes := c.passes.take c.passes_enabled
  let clearEffects : List Effect :=
    match options with
    | some o =>
      if o.clear_history then
        c.history_framebuffers.map (fun fb => Effect.clearFb fb.handle)
      else []
    | none => []
  match passes with
  | [] => .ok (c, clearEffects, ctr)
  | p0 :: rest =>
    FilterChain.frameEnabled status resolve c count viewport input
      clearEffects p0 rest ctr

/-! ## Shared lemmas -/

theorem log2floor_max_one (m : Nat) : log2floor (max 1 m) = log2floor m := by
  cases m with
  | zero => decide
  | succ k => rw [Nat.max_eq_right (Nat.succ_le_succ (Nat.zero_le k))]

/-- The zero-dimension clamp does not change the mip ceiling. -/
theorem mipCeil_clampSize (s : Size) : mipCeil (clampSize s) = mipCeil s := by
  rcases s with ⟨w, h⟩
  unfold mipCeil clampSize
  congr 1
  have hmax : max (if w = 0 then 1 else w) (if h = 0 then 1 else h) =
      max 1 (max w h) := by
    split_ifs <;> omega
  simp only [hmax]
  exact log2floor_max_one (max w h)

/-- `glMipLevels` is at least 1. -/
theorem glMipLevels_pos (maxLevels : Nat) (s : Size) :
    1 ≤ glMipLevels maxLevels s := by
  simp only [glMipLevels]
  split_ifs <;> omega

/-- `glMipLevels` is bounded by `max max_levels (mipCeil s)`. -/
theorem glMipLevels_le (maxLevels : Nat) (s : Size) :
    glMipLevels maxLevels s ≤ max maxLevels (mipCeil s) := by
  have hm : 1 ≤ mipCeil s := Nat.le_add_right 1 _
  simp only [glMipLevels]
  split_ifs <;>
    first
      | exact le_max_of_le_right hm
      | exact le_max_left _ _
      | exact le_max_right _ _

/-- The fields of a framebuffer after a successful non-raw `init`: the
texture is a fresh name (`ctr` on the normal path, `ctr + 1` on the
unsupported-fallback path), size and format are the requested ones, and
mip levels follow `glMipLevels` of the clamped size. -/
theorem init_ok_fields {status : Nat → Size → Nat} {fb : Gl3Framebuffer}
    {size : Size} {format ctr : Nat} {fb' : Gl3Framebuffer} {ctr' : Nat}
    (hraw : fb.is_raw = false)
    (h : Gl3Framebuffer.init status fb size format ctr = .ok (fb', ctr')) :
    (fb'.image = ctr ∨ fb'.image = ctr + 1) ∧ fb'.size = size ∧
    fb'.format = format ∧
    fb'.mip_levels = glMipLevels fb.max_levels (clampSize size) ∧
    fb'.max_levels = fb.max_levels ∧ fb'.handle = fb.handle ∧
    fb'.is_raw = false := by
  unfold Gl3Framebuffer.init at h
  rw [hraw] at h
  simp only [Bool.false_eq_true, if_false] at h
  split at h
  · rw [Except.ok.injEq, Prod.mk.injEq] at h
    obtain ⟨h1, _⟩ := h
    subst h1
    simp
  · split at h
    · rw [Except.ok.injEq, Prod.mk.injEq] at h
      obtain ⟨h1, _⟩ := h
      subst h1
      simp
    · exact absurd h (by simp)

/-- A successful non-raw `init` consumes one or two fresh names. -/
theorem init_ok_ctr {status : Nat → Size → Nat} {fb : Gl3Framebuffer}
    {size : Size} {format ctr : Nat} {fb' : Gl3Framebuffer} {ctr' : Nat}
    (hraw : fb.is_raw = false)
    (h : Gl3Framebuffer.init status fb size format ctr = .ok (fb', ctr')) :
    ctr' = ctr + 1 ∨ ctr' = ctr + 2 := by
  unfold Gl3Framebuffer.init at h
  rw [hraw] at h
  simp only [Bool.false_eq_true, if_false] at h
  split at h
  · rw [Except.ok.injEq, Prod.mk.injEq] at h
    omega
  · split at h
    · rw [Except.ok.injEq, Prod.mk.injEq] at h
      omega
    · exact absurd h (by simp)

/-! ## C1 -/

/-- C1: the claim says that when the backend reports the framebuffer
incomplete, `init` falls back once to linear RGBA8, and that a second
failure returns an error rather than silently succeeding. On a backend
whose `CheckFramebufferStatus` always answers `FRAMEBUFFER_UNSUPPORTED`
— so the framebuffer is still incomplete after the RGBA8 retry — `init`
nevertheless returns Ok: the post-fallback status check is commented out
in the source, so the retry silently succeeds. -/
theorem c1_init_silently_succeeds_after_fallback :
    Gl3Framebuffer.init (fun _ _ => FRAMEBUFFER_UNSUPPORTED)
      (Gl3Framebuffer.new 9 1) ⟨64, 64⟩ 32856 100 =
    .ok ({ image := 101, handle := 9, size := ⟨64, 64⟩, format := 32856,
           max_levels := 1, mip_levels := 1, is_raw := false }, 102) := by
  decide

/-! ## C9 -/

/-- C9: a framebuffer built by `new_from_raw` has `is_raw = true`, and
for every raw framebuffer `scale` returns the stored size and `init`
returns Ok immediately, neither of them changing any field or consuming
a fresh GPU name. -/
theorem c9_raw_framebuffer_immutable (t h f : Nat) (s : Size) (m : Nat)
    (status : Nat → Size → Nat) (fb : Gl3Framebuffer) (cs s2 : Size)
    (fmt : ImageFormat) (fmt2 ctr : Nat) (hraw : fb.is_raw = true) :
    (Gl3Framebuffer.new_from_raw t h f s m).is_raw = true ∧
    Gl3Framebuffer.scale status fb cs fmt ctr = .ok (fb, fb.size, ctr) ∧
    Gl3Framebuffer.init status fb s2 fmt2 ctr = .ok (fb, ctr) := by
  refine ⟨rfl, ?_, ?_⟩
  · unfold Gl3Framebuffer.scale
    rw [hraw]
    simp
  · unfold Gl3Framebuffer.init
    rw [hraw]
    simp

theorem c9_raw_framebuffer_immutable_witness :
    (Gl3Framebuffer.new_from_raw 3 4 32856 ⟨64, 64⟩ 1).is_raw = true ∧
    Gl3Framebuffer.scale (fun _ _ => FRAMEBUFFER_COMPLETE)
        (Gl3Framebuffer.new_from_raw 3 4 32856 ⟨64, 64⟩ 1) ⟨128, 128⟩
        ImageFormat.r8g8b8a8Srgb 7 =
      .ok (Gl3Framebuffer.new_from_raw 3 4 32856 ⟨64, 64⟩ 1,
        (Gl3Framebuffer.new_from_raw 3 4 32856 ⟨64, 64⟩ 1).size, 7) ∧
    Gl3Framebuffer.init (fun _ _ => FRAMEBUFFER_COMPLETE)
        (Gl3Framebuffer.new_from_raw 3 4 32856 ⟨64, 64⟩ 1) ⟨128, 128⟩ 0 7 =
      .ok (Gl3Framebuffer.new_from_raw 3 4 32856 ⟨64, 64⟩ 1, 7) :=
  c9_raw_framebuffer_immutable 3 4 32856 ⟨64, 64⟩ 1
    (fun _ _ => FRAMEBUFFER_COMPLETE)
    (Gl3Framebuffer.new_from_raw 3 4 32856 ⟨64, 64⟩ 1) ⟨128, 128⟩ ⟨128, 128⟩
    ImageFormat.r8g8b8a8Srgb 0 7 (by decide)

/-! ## C6 -/

/-- C6 counterexample: both backends clear with alpha 0.0, not with a
fully opaque alpha: the gl3 clear issues `ClearColor(0,0,0,0)` and the
Vulkan clear uses the clear color `[0.0, 0.0, 0.0, 0.0]`, so the claim
that the resulting pixel value is opaque black (alpha fully opaque) is
false. -/
theorem c6_clear_counterexample :
    Gl3Framebuffer.clear false (Gl3Framebuffer.new 1 1) =
      [GlCmd.colorMask true true true true, GlCmd.clearColor 0 0 0 0,
       GlCmd.clearBuffers GL_COLOR_BUFFER_BIT] ∧
    OwnedImage.clear
        (OwnedImage.new_internal 1 2 ⟨64, 64⟩ ImageFormat.r8g8b8a8Unorm 1) =
      [VkCmd.transition 1 LAYOUT_UNDEFINED LAYOUT_TRANSFER_DST,
       VkCmd.clearColorImage 1 0 0 0 0 0 1 0 1,
       VkCmd.transition 1 LAYOUT_TRANSFER_DST LAYOUT_SHADER_READ] ∧
    ¬ ((0 : Int) = 1) := by decide

/-- C6 amended: the managed-image clear clears the render target to
transparent black (0,0,0,0) — all color channels write-enabled on the
GL backend, but alpha cleared to 0, not to fully opaque — on both
backends: every clear-color command either backend issues carries the
color (0,0,0,0). -/
theorem c6_clear_transparent_black (rebind : Bool) (fb : Gl3Framebuffer)
    (img : OwnedImage) (r g b a : Int) (i : Nat) (r2 g2 b2 a2 : Int)
    (bm lc bl ly : Nat)
    (hgl : GlCmd.clearColor r g b a ∈ Gl3Framebuffer.clear rebind fb)
    (hvk : VkCmd.clearColorImage i r2 g2 b2 a2 bm lc bl ly ∈
      OwnedImage.clear img) :
    GlCmd.colorMask true true true true ∈ Gl3Framebuffer.clear rebind fb ∧
    r = 0 ∧ g = 0 ∧ b = 0 ∧ a = 0 ∧
    r2 = 0 ∧ g2 = 0 ∧ b2 = 0 ∧ a2 = 0 := by
  cases rebind <;>
    simp_all [Gl3Framebuffer.clear, OwnedImage.clear]

theorem c6_clear_transparent_black_witness :
    GlCmd.colorMask true true true true ∈
      Gl3Framebuffer.clear false (Gl3Framebuffer.new 1 1) ∧
    (0 : Int) = 0 ∧ (0 : Int) = 0 ∧ (0 : Int) = 0 ∧ (0 : Int) = 0 ∧
    (0 : Int) = 0 ∧ (0 : Int) = 0 ∧ (0 : Int) = 0 ∧ (0 : Int) = 0 :=
  c6_clear_transparent_black false (Gl3Framebuffer.new 1 1)
    (OwnedImage.new_internal 1 2 ⟨64, 64⟩ ImageFormat.r8g8b8a8Unorm 1)
    0 0 0 0 1 0 0 0 0 0 1 0 1 (by decide) (by decide)

/-! ## C8 -/

/-- C8 counterexample: the Vulkan `OwnedImage::new_internal` with
`max_miplevels = 0` stores `levels = min 0 (mipCeil size) = 0`,
violating the claimed invariant `1 ≤ levels` (the claim explicitly
includes `max_levels = 0`). -/
theorem c8_levels_counterexample :
    (OwnedImage.new_internal 10 11 ⟨64, 64⟩
      ImageFormat.r8g8b8a8Unorm 0).levels = 0 ∧
    ¬ (1 ≤ (OwnedImage.new_internal 10 11 ⟨64, 64⟩
      ImageFormat.r8g8b8a8Unorm 0).levels) := by decide

/-- C8 amended: on the GL backend every successful non-raw `init` (and
hence `scale` and `copy_from`, which delegate to it) establishes
`1 ≤ mip_levels ≤ max(max_levels, mipCeil(size))` for every
`max_levels` including 0; on Vulkan the stored level count is exactly
`min(max_miplevels, mipCeil(size))`, which satisfies the invariant
whenever `max_miplevels ≥ 1` but degenerates to 0 when
`max_miplevels = 0`. -/
theorem c8_levels_amended (status : Nat → Size → Nat) (fb : Gl3Framebuffer)
    (size : Size) (fmt ctr : Nat) (fb' : Gl3Framebuffer) (ctr' : Nat)
    (imgH viewH : Nat) (vsize : Size) (vfmt : ImageFormat) (maxm : Nat)
    (hraw : fb.is_raw = false)
    (hok : Gl3Framebuffer.init status fb size fmt ctr = .ok (fb', ctr')) :
    (1 ≤ fb'.mip_levels ∧
      fb'.mip_levels ≤ max fb.max_levels (mipCeil size)) ∧
    ((OwnedImage.new_internal imgH viewH vsize vfmt maxm).levels =
        min maxm (mipCeil vsize) ∧
      (1 ≤ maxm →
        1 ≤ (OwnedImage.new_internal imgH viewH vsize vfmt maxm).levels ∧
        (OwnedImage.new_internal imgH viewH vsize vfmt maxm).levels ≤
          max maxm (mipCeil vsize))) := by
  obtain ⟨_, _, _, hmip, _, _, _⟩ := init_ok_fields hraw hok
  refine ⟨⟨?_, ?_⟩, ?_, fun hmx => ⟨?_, ?_⟩⟩
  · rw [hmip]; exact glMipLevels_pos _ _
  · rw [hmip, ← mipCeil_clampSize size]; exact glMipLevels_le _ _
  · simp [OwnedImage.new_internal]
  · simp only [OwnedImage.new_internal]
    exact le_min hmx (Nat.le_add_right 1 _)
  · simp only [OwnedImage.new_internal]
    exact le_trans (min_le_left _ _) (le_max_left _ _)

def c8fb : Gl3Framebuffer :=
  { image := 9, handle := 5, size := ⟨64, 64⟩, format := 32856
  , max_levels := 3, mip_levels := 3, is_raw := false }

theorem c8_levels_witness :
    (1 ≤ c8fb.mip_levels ∧
      c8fb.mip_levels ≤ max (Gl3Framebuffer.new 5 3).max_levels
        (mipCeil ⟨64, 64⟩)) ∧
    ((OwnedImage.new_internal 20 21 ⟨64, 64⟩
        ImageFormat.r8g8b8a8Unorm 2).levels = min 2 (mipCeil ⟨64, 64⟩) ∧
      (1 ≤ 2 →
        1 ≤ (OwnedImage.new_internal 20 21 ⟨64, 64⟩
          ImageFormat.r8g8b8a8Unorm 2).levels ∧
        (OwnedImage.new_internal 20 21 ⟨64, 64⟩
          ImageFormat.r8g8b8a8Unorm 2).levels ≤ max 2 (mipCeil ⟨64, 64⟩))) :=
  c8_levels_amended (fun _ _ => FRAMEBUFFER_COMPLETE)
    (Gl3Framebuffer.new 5 3) ⟨64, 64⟩ 32856 9 c8fb 10 20 21 ⟨64, 64⟩
    ImageFormat.r8g8b8a8Unorm 2 (by decide) (by decide)

/-! ## C2 -/

def c2fb : Gl3Framebuffer :=
  { image := 5, handle := 1, size := ⟨64, 64⟩, format := 32856
  , max_levels := 1, mip_levels := 1, is_raw := false }

/-- C2 counterexample: a gl3 `scale` whose computed size equals the
current size but whose requested format differs from the stored one
(SRGB8_ALPHA8 vs RGBA8) is a complete no-op — the backing image is not
released or reallocated, contradicting the claim that a differing
format forces reallocation. -/
theorem c2_scale_counterexample :
    Gl3Framebuffer.scale (fun _ _ => FRAMEBUFFER_COMPLETE) c2fb ⟨64, 64⟩
        ImageFormat.r8g8b8a8Srgb 100 = .ok (c2fb, ⟨64, 64⟩, 100) ∧
    ImageFormat.r8g8b8a8Srgb.toGl ≠ c2fb.format := by decide

/-- C2 amended: `scale` reallocates based on size (GL) or on size and
the mipmap requirement (Vulkan) — never on the format alone. On GL, a
computed size equal to the current one is a no-op for every format;
when the size differs, the backing texture is released and a fresh one
of the computed size (and the requested format, RGBA8 when Unknown) is
allocated. On Vulkan, the image and view are replaced by fresh handles
exactly when the reallocation condition (size differs, or the mipmap
requirement disagrees with `max_miplevels`) holds, and nothing is
mutated otherwise. -/
theorem c2_scale_amended :
    (∀ (status : Nat → Size → Nat) (fb : Gl3Framebuffer) (cs : Size)
        (fmt : ImageFormat) (ctr : Nat), fb.is_raw = false → fb.size = cs →
      Gl3Framebuffer.scale status fb cs fmt ctr = .ok (fb, cs, ctr)) ∧
    (∀ (status : Nat → Size → Nat) (fb : Gl3Framebuffer) (cs : Size)
        (fmt : ImageFormat) (ctr : Nat) (fb' : Gl3Framebuffer) (sz : Size)
        (ctr' : Nat), fb.is_raw = false → fb.size ≠ cs →
      Gl3Framebuffer.scale status fb cs fmt ctr = .ok (fb', sz, ctr') →
      (fb'.image = ctr ∨ fb'.image = ctr + 1) ∧ fb'.size = cs ∧ sz = cs ∧
        fb'.format = (if fmt = ImageFormat.unknown then
          ImageFormat.r8g8b8a8Unorm else fmt).toGl) ∧
    (∀ (imgH viewH : Nat) (self : OwnedImage) (cs : Size)
        (fmt : ImageFormat) (mm : Bool), ¬ OwnedImage.scaleCond self cs mm →
      OwnedImage.scale imgH viewH self cs fmt mm = (self, cs)) ∧
    (∀ (imgH viewH : Nat) (self : OwnedImage) (cs : Size)
        (fmt : ImageFormat) (mm : Bool), OwnedImage.scaleCond self cs mm →
      (OwnedImage.scale imgH viewH self cs fmt mm).1.image.image = imgH ∧
      (OwnedImage.scale imgH viewH self cs fmt mm).1.image.size = cs ∧
      (OwnedImage.scale imgH viewH self cs fmt mm).1.image_view = viewH) := by
  refine ⟨?_, ?_, ?_, ?_⟩
  · intro status fb cs fmt ctr hraw hsz
    unfold Gl3Framebuffer.scale
    rw [hraw]
    simp [hsz]
  · intro status fb cs fmt ctr fb' sz ctr' hraw hsz hok
    unfold Gl3Framebuffer.scale at hok
    rw [hraw] at hok
    simp only [Bool.false_eq_true, if_false, if_pos hsz] at hok
    split at hok
    · next fb2 c heq =>
      rw [Except.ok.injEq, Prod.mk.injEq, Prod.mk.injEq] at hok
      obtain ⟨h1, h2, _⟩ := hok
      subst h1
      subst h2
      obtain ⟨hi, hs, hf, _, _, _, _⟩ := init_ok_fields rfl heq
      exact ⟨hi, hs, rfl, hf⟩
    · exact absurd hok (by simp)
  · intro imgH viewH self cs fmt mm hc
    unfold OwnedImage.scale
    rw [if_neg hc]
  · intro imgH viewH self cs fmt mm hc
    unfold OwnedImage.scale
    rw [if_pos hc]
    simp [OwnedImage.new_internal]

def c2vk : OwnedImage :=
  OwnedImage.new_internal 40 41 ⟨64, 64⟩ ImageFormat.r8g8b8a8Unorm 1

theorem c2_scale_witness :
    Gl3Framebuffer.scale (fun _ _ => FRAMEBUFFER_COMPLETE) c2fb ⟨64, 64⟩
        ImageFormat.unknown 7 = .ok (c2fb, ⟨64, 64⟩, 7) ∧
    OwnedImage.scale 50 51 c2vk ⟨64, 64⟩ ImageFormat.unknown false =
      (c2vk, ⟨64, 64⟩) ∧
    ((OwnedImage.scale 50 51 c2vk ⟨64, 64⟩ ImageFormat.unknown
        true).1.image.image = 50 ∧
      (OwnedImage.scale 50 51 c2vk ⟨64, 64⟩ ImageFormat.unknown
        true).1.image.size = ⟨64, 64⟩ ∧
      (OwnedImage.scale 50 51 c2vk ⟨64, 64⟩ ImageFormat.unknown
        true).1.image_view = 51) :=
  ⟨c2_scale_amended.1 (fun _ _ => FRAMEBUFFER_COMPLETE) c2fb ⟨64, 64⟩
      ImageFormat.unknown 7 (by decide) (by decide),
   c2_scale_amended.2.2.1 50 51 c2vk ⟨64, 64⟩ ImageFormat.unknown false
      (by decide),
   c2_scale_amended.2.2.2 50 51 c2vk ⟨64, 64⟩ ImageFormat.unknown true
      (by decide)⟩

/-! ## C4 -/

def c4pass : FilterPass :=
  { config := { filter := FilterMode.nearest
              , wrap_mode := WrapMode.clampToBorder, frame_count_mod := 0 }
  , meta := { texture_meta := [⟨TextureSemantics.originalHistory, 2⟩]
            , texture_size_meta := [] }
  , formatOut := ImageFormat.unknown }

/-- The history length as the spec words it ("one plus the maximum
index k such that some pass references OriginalHistory[k] as a texture
or texture-size"), stated from the spec's words for comparison with
`init_history`. -/
def specHistoryImages (filters : List FilterPass) : Nat :=
  filters.foldl (fun acc p =>
    (p.meta.texture_meta ++ p.meta.texture_size_meta).foldl
      (fun a r =>
        if r.semantics = TextureSemantics.originalHistory then
          max a (r.index + 1)
        else a) acc) 0

/-- C4 counterexample: a pass referencing only `OriginalHistory[2]` as a
texture. The spec's `H` is `2 + 1 = 3 > 1`, so the claim demands a
3-slot history ring; `init_history` instead counts the number of
OriginalHistory keys (here 1), decides `1 ≤ 1`, and disables history
with an empty deque. -/
theorem c4_history_counterexample :
    init_history [c4pass] FilterMode.nearest WrapMode.clampToBorder 0 =
      ([], []) ∧
    specHistoryImages [c4pass] = 3 ∧ ¬ ((3 : Nat) ≤ 1) := by decide

/-- C4 amended: the history ring length equals `requiredImages` — the
maximum over passes of the number (count, not largest index plus one) of
OriginalHistory keys among the pass's texture and texture-size
bindings — and whenever that value is at most 1, history is disabled
and the deque is empty. -/
theorem c4_history_amended (filters : List FilterPass) (f : FilterMode)
    (w : WrapMode) (h : Nat) :
    ((init_history filters f w h).1.length =
      if requiredImages filters ≤ 1 then 0 else requiredImages filters) ∧
    (requiredImages filters ≤ 1 → init_history filters f w h = ([], [])) := by
  unfold init_history
  constructor
  · by_cases hr : requiredImages filters ≤ 1 <;> simp [hr]
  · intro hle
    rw [if_pos hle]

theorem c4_history_witness :
    (init_history [] FilterMode.nearest WrapMode.clampToBorder 0).1.length =
      (if requiredImages [] ≤ 1 then 0 else requiredImages []) ∧
    init_history [] FilterMode.nearest WrapMode.clampToBorder 0 = ([], []) :=
  ⟨(c4_history_amended [] FilterMode.nearest WrapMode.clampToBorder 0).1,
   (c4_history_amended [] FilterMode.nearest WrapMode.clampToBorder 0).2
     (by decide)⟩

/-! ## C10 -/

def c10back : Gl3Framebuffer :=
  { image := 5, handle := 9, size := ⟨64, 64⟩, format := 32856
  , max_levels := 1, mip_levels := 1, is_raw := false }

def c10chain : FilterChain :=
  { passes := [], passes_enabled := 0, output_framebuffers := []
  , feedback_framebuffers := [], history_framebuffers := [c10back]
  , output_textures := [], feedback_textures := [], history_textures := [] }

def c10input : GlImage :=
  { handle := 3, format := 0, size := ⟨64, 64⟩, padded_size := ⟨0, 0⟩ }

/-- C10 counterexample: the recycled back framebuffer has the input's
size but a nonzero format (RGBA8) while the input's format tag is 0, so
the claim says no reallocation happens; `push_history`'s own guard
indeed skips the re-init, but the `copy_from` it then performs sees the
format mismatch and reallocates the backing texture (new name 100
replacing 5, stored format overwritten to 0). -/
theorem c10_push_history_counterexample :
    ¬ (c10back.size ≠ c10input.size ∨
        (c10input.format ≠ 0 ∧ c10input.format ≠ c10back.format)) ∧
    FilterChain.push_history (fun _ _ => FRAMEBUFFER_COMPLETE) c10chain
        c10input 100 =
      .ok ({ c10chain with history_framebuffers :=
        [{ c10back with image := 100, format := 0 }] }, 101) ∧
    (100 : Nat) ≠ c10back.image := by decide

/-- C10 amended: with an empty deque `push_history` is a no-op
returning Ok. Otherwise the recycled back framebuffer keeps its backing
texture if and only if neither its size nor its format differs from the
input's: the explicit guard skips format-0 inputs, but the `copy_from`
that follows still reallocates on any format mismatch, including
format 0. -/
theorem c10_push_history_amended :
    (∀ (status : Nat → Size → Nat) (c : FilterChain) (input : GlImage)
        (ctr : Nat), c.history_framebuffers = [] →
      FilterChain.push_history status c input ctr = .ok (c, ctr)) ∧
    (∀ (status : Nat → Size → Nat) (c : FilterChain) (input : GlImage)
        (ctr : Nat) (b : Gl3Framebuffer) (c' : FilterChain) (ctr' : Nat),
      c.history_framebuffers.getLast? = some b → b.is_raw = false →
      ctr ≠ b.image → ctr + 1 ≠ b.image →
      FilterChain.push_history status c input ctr = .ok (c', ctr') →
      ((c'.history_framebuffers.headD dummyFb).image = b.image ↔
        ¬ (b.size ≠ input.size ∨ input.format ≠ b.format))) := by
  constructor
  · intro status c input ctr hemp
    unfold FilterChain.push_history
    rw [hemp]
    rfl
  · intro status c input ctr b c' ctr' hlast hraw hf1 hf2 hok
    unfold FilterChain.push_history at hok
    rw [hlast] at hok
    dsimp only at hok
    by_cases hc : (b.size ≠ input.size ∨
        (input.format ≠ 0 ∧ input.format ≠ b.format))
    · rw [if_pos hc] at hok
      cases hinit : Gl3Framebuffer.init status b input.size input.format ctr
        with
      | error e => rw [hinit] at hok; exact absurd hok (by simp)
      | ok pr =>
        obtain ⟨b1, ctr1⟩ := pr
        rw [hinit] at hok
        dsimp only at hok
        obtain ⟨hi, hs, hf, _, _, _, _⟩ := init_ok_fields hraw hinit
        have hnoc : ¬ (input.size ≠ b1.size ∨ input.format ≠ b1.format) := by
          rw [hs, hf]
          simp
        unfold Gl3Framebuffer.copy_from at hok
        rw [if_neg hnoc] at hok
        dsimp only at hok
        simp only [Except.ok.injEq, Prod.mk.injEq] at hok
        obtain ⟨hc', _⟩ := hok
        subst hc'
        simp only [List.headD_cons]
        have hne : b1.image ≠ b.image := by
          rcases hi with hi | hi <;> rw [hi] <;> [exact hf1; exact hf2]
        have hrhs : b.size ≠ input.size ∨ input.format ≠ b.format := by
          rcases hc with hc | ⟨_, hc⟩
          · exact Or.inl hc
          · exact Or.inr hc
        exact iff_of_false hne (not_not_intro hrhs)
    · rw [if_neg hc] at hok
      dsimp only at hok
      by_cases hc2 : (input.size ≠ b.size ∨ input.format ≠ b.format)
      · unfold Gl3Framebuffer.copy_from at hok
        rw [if_pos hc2] at hok
        cases hinit : Gl3Framebuffer.init status b input.size input.format ctr
          with
        | error e => rw [hinit] at hok; exact absurd hok (by simp)
        | ok pr =>
          obtain ⟨b2, ctr2⟩ := pr
          rw [hinit] at hok
          dsimp only at hok
          obtain ⟨hi, _, _, _, _, _, _⟩ := init_ok_fields hraw hinit
          simp only [Except.ok.injEq, Prod.mk.injEq] at hok
          obtain ⟨hc', _⟩ := hok
          subst hc'
          simp only [List.headD_cons]
          have hne : b2.image ≠ b.image := by
            rcases hi with hi | hi <;> rw [hi] <;> [exact hf1; exact hf2]
          have hrhs : b.size ≠ input.size ∨ input.format ≠ b.format := by
            rcases hc2 with hc2 | hc2
            · exact Or.inl (Ne.symm hc2)
            · exact Or.inr hc2
          exact iff_of_false hne (not_not_intro hrhs)
      · unfold Gl3Framebuffer.copy_from at hok
        rw [if_neg hc2] at hok
        dsimp only at hok
        simp only [Except.ok.injEq, Prod.mk.injEq] at hok
        obtain ⟨hc', _⟩ := hok
        subst hc'
        push_neg at hc2
        refine iff_of_true ?_ ?_
        · rfl
        · intro hctr
          rcases hctr with hctr | hctr
          · exact hctr hc2.1.symm
          · exact hctr hc2.2

def c10input2 : GlImage := { c10input with format := 32856 }

theorem c10_push_history_witness :
    FilterChain.push_history (fun _ _ => FRAMEBUFFER_COMPLETE)
        { c10chain with history_framebuffers := [] } c10input 55 =
      .ok ({ c10chain with history_framebuffers := [] }, 55) ∧
    (c10chain.history_framebuffers.headD dummyFb).image = c10back.image :=
  ⟨c10_push_history_amended.1 (fun _ _ => FRAMEBUFFER_COMPLETE)
      { c10chain with history_framebuffers := [] } c10input 55 rfl,
   (c10_push_history_amended.2 (fun _ _ => FRAMEBUFFER_COMPLETE) c10chain
      c10input2 200 c10back c10chain 200 (by decide) (by decide) (by decide)
      (by decide) (by decide)).mpr (by decide)⟩

/-! ## C3 -/

def c3chain : FilterChain :=
  { passes := [], passes_enabled := 0, output_framebuffers := []
  , feedback_framebuffers := []
  , history_framebuffers := [Gl3Framebuffer.new 7 1]
  , output_textures := [], feedback_textures := [], history_textures := [] }

def c3vp : Viewport := ⟨0, 0, Gl3Framebuffer.new_from_raw 0 1 0 ⟨1, 1⟩ 0⟩

def c3input : GlImage :=
  { handle := 0, format := 0, size := ⟨1, 1⟩, padded_size := ⟨0, 0⟩ }

/-- C3 counterexample: a chain with `passes_enabled = 0` but a nonempty
history deque, invoked with `clear_history = true`: `frame` returns Ok
but the options-driven history clear runs before the empty-passes early
return, so a GPU clear of history framebuffer 7 is issued — the frame is
not free of GPU effects for every options value. -/
theorem c3_frame_disabled_counterexample :
    FilterChain.frame (fun _ _ => FRAMEBUFFER_COMPLETE)
        (fun _ _ _ => ⟨1, 1⟩) c3chain 0 c3vp c3input (some ⟨true⟩) 0 =
      .ok (c3chain, [Effect.clearFb 7], 0) ∧
    ([Effect.clearFb 7] : List Effect) ≠ [] := by decide

/-- C3 amended: with `passes_enabled = 0`, `frame` returns Ok with the
chain state and fresh-name counter unchanged and issues no draw — the
only possible GPU effects are the history-framebuffer clears requested
through `options.clear_history`, and without that option the frame is a
complete no-op. -/
theorem c3_frame_disabled_amended (status : Nat → Size → Nat)
    (resolve : Nat → Size → Size → Size) (c : FilterChain) (count : Nat)
    (vp : Viewport) (input : GlImage) (opts : Option FrameOptions)
    (ctr : Nat) (h : c.passes_enabled = 0) :
    ∃ effs, FilterChain.frame status resolve c count vp input opts ctr =
        .ok (c, effs, ctr) ∧
      (∀ e ∈ effs, ∃ fb ∈ c.history_framebuffers,
        e = Effect.clearFb fb.handle) ∧
      ((opts = none ∨ ∃ o, opts = some o ∧ o.clear_history = false) →
        effs = []) := by
  unfold FilterChain.frame
  rw [h]
  simp only [List.take_zero]
  refine ⟨_, rfl, ?_, ?_⟩
  · intro e he
    match opts with
    | none => simp at he
    | some o =>
      by_cases hch : o.clear_history
      · simp only [hch, if_pos] at he
        rw [List.mem_map] at he
        obtain ⟨fb, hfb, rfl⟩ := he
        exact ⟨fb, hfb, rfl⟩
      · rw [Bool.not_eq_true] at hch
        simp [hch] at he
  · rintro (rfl | ⟨o, rfl, hch⟩)
    · rfl
    · simp [hch]

theorem c3_frame_disabled_witness :
    c3chain.passes_enabled = 0 ∧
    ∃ effs, FilterChain.frame (fun _ _ => FRAMEBUFFER_COMPLETE)
        (fun _ _ _ => ⟨1, 1⟩) c3chain 0 c3vp c3input none 0 =
        .ok (c3chain, effs, 0) ∧
      (∀ e ∈ effs, ∃ fb ∈ c3chain.history_framebuffers,
        e = Effect.clearFb fb.handle) ∧
      (((none : Option FrameOptions) = none ∨
        ∃ o, (none : Option FrameOptions) = some o ∧
          o.clear_history = false) → effs = []) :=
  ⟨rfl, c3_frame_disabled_amended (fun _ _ => FRAMEBUFFER_COMPLETE)
    (fun _ _ _ => ⟨1, 1⟩) c3chain 0 c3vp c3input none 0 rfl⟩

/-! ## Frame-loop lemmas shared by the framecount and draw-count
claims. -/

def dummyPass : FilterPass :=
  { config := { filter := FilterMode.nearest
              , wrap_mode := WrapMode.clampToBorder, frame_count_mod := 0 }
  , meta := { texture_meta := [], texture_size_meta := [] }
  , formatOut := ImageFormat.unknown }

/-- Whether an effect is a quad draw. -/
def Effect.isDraw : Effect → Bool
  | .draw _ _ _ => true
  | _ => false

/-- A successful `push_history` only touches the history deque. -/
theorem push_history_preserves {status : Nat → Size → Nat}
    {c : FilterChain} {input : GlImage} {ctr : Nat} {c' : FilterChain}
    {ctr' : Nat}
    (h : FilterChain.push_history status c input ctr = .ok (c', ctr')) :
    c'.passes = c.passes ∧ c'.passes_enabled = c.passes_enabled ∧
    c'.output_framebuffers = c.output_framebuffers ∧
    c'.feedback_framebuffers = c.feedback_framebuffers ∧
    c'.output_textures = c.output_textures ∧
    c'.feedback_textures = c.feedback_textures ∧
    c'.history_textures = c.history_textures := by
  unfold FilterChain.push_history at h
  cases hl : c.history_framebuffers.getLast? with
  | none =>
    rw [hl] at h
    dsimp only at h
    rw [Except.ok.injEq, Prod.mk.injEq] at h
    obtain ⟨rfl, _⟩ := h
    exact ⟨rfl, rfl, rfl, rfl, rfl, rfl, rfl⟩
  | some b =>
    rw [hl] at h
    dsimp only at h
    by_cases hc : (b.size ≠ input.size ∨
        (input.format ≠ 0 ∧ input.format ≠ b.format))
    · rw [if_pos hc] at h
      cases hinit : Gl3Framebuffer.init status b input.size input.format ctr
        with
      | error e => rw [hinit] at h; exact absurd h (by simp)
      | ok pr =>
        obtain ⟨b1, ctr1⟩ := pr
        rw [hinit] at h
        dsimp only at h
        cases hcp : Gl3Framebuffer.copy_from status b1 input ctr1 with
        | error e => rw [hcp] at h; exact absurd h (by simp)
        | ok pr2 =>
          obtain ⟨b2, ctr2⟩ := pr2
          rw [hcp] at h
          dsimp only at h
          rw [Except.ok.injEq, Prod.mk.injEq] at h
          obtain ⟨hc', _⟩ := h
          subst hc'
          exact ⟨rfl, rfl, rfl, rfl, rfl, rfl, rfl⟩
    · rw [if_neg hc] at h
      dsimp only at h
      cases hcp : Gl3Framebuffer.copy_from status b input ctr with
      | error e => rw [hcp] at h; exact absurd h (by simp)
      | ok pr2 =>
        obtain ⟨b2, ctr2⟩ := pr2
        rw [hcp] at h
        dsimp only at h
        rw [Except.ok.injEq, Prod.mk.injEq] at h
        obtain ⟨hc', _⟩ := h
        subst hc'
        exact ⟨rfl, rfl, rfl, rfl, rfl, rfl, rfl⟩

/-- Decomposition of a successful `frameEnabled`: the rescale loop
succeeded, the effect list is exactly the clears, the VAO bind, the
intermediate draws, the final draw into the viewport, and the VAO
unbind, and the output/feedback framebuffers of the result are the
whole-slice pairwise swap of the post-rescale framebuffers. -/
theorem frameEnabled_ok {status : Nat → Size → Nat}
    {resolve : Nat → Size → Size → Size} {c : FilterChain} {count : Nat}
    {vp : Viewport} {input : GlImage} {clearEffects : List Effect}
    {p0 : FilterPass} {rest : List FilterPass} {ctr : Nat}
    {c' : FilterChain} {effs : List Effect} {ctr' : Nat}
    (hok : FilterChain.frameEnabled status resolve c count vp input
      clearEffects p0 rest ctr = .ok (c', effs, ctr')) :
    ∃ outFbs fbFbs ctr1,
      rescalePasses status resolve vp.output.size input.size (p0 :: rest) 0
        c.output_framebuffers c.feedback_framebuffers ctr =
        .ok (outFbs, fbFbs, ctr1) ∧
      effs = clearEffects ++ [Effect.bindVao] ++
        (drawIntermediate count ((p0 :: rest).dropLast) 0 outFbs
          c.output_textures
          { image := input, filter := p0.config.filter
          , mip_filter := p0.config.filter
          , wrap_mode := p0.config.wrap_mode }).1 ++
        [Effect.draw ((p0 :: rest).length - 1)
          (framecountFor ((p0 :: rest).getLast
            (List.cons_ne_nil p0 rest)).config.frame_count_mod count)
          vp.output.handle] ++ [Effect.unbindVao] ∧
      c'.output_framebuffers = (swapLists outFbs fbFbs).1 ∧
      c'.feedback_framebuffers = (swapLists outFbs fbFbs).2 := by
  unfold FilterChain.frameEnabled at hok
  dsimp only at hok
  cases hres : rescalePasses status resolve vp.output.size input.size
      (p0 :: rest) 0 c.output_framebuffers c.feedback_framebuffers ctr with
  | error e => rw [hres] at hok; exact absurd hok (by simp)
  | ok tr =>
    obtain ⟨outFbs, fbFbs, ctr1⟩ := tr
    rw [hres] at hok
    dsimp only at hok
    split at hok
    · exact absurd hok (by simp)
    · next c2 ctr2 heq =>
      rw [Except.ok.injEq, Prod.mk.injEq, Prod.mk.injEq] at hok
      obtain ⟨hc2, heff, _⟩ := hok
      subst hc2
      obtain ⟨_, _, ho, hf, _, _, _⟩ := push_history_preserves heq
      exact ⟨outFbs, fbFbs, ctr1, rfl, heff.symm, ho, hf⟩

/-- Every draw the intermediate-pass loop emits carries the reduced
frame count of the pass at the matching position. -/
theorem drawIntermediate_draw_mem (count : Nat) :
    ∀ (ps : List FilterPass) (j : Nat) (outFbs : List Gl3Framebuffer)
      (outTex : List Texture) (src : Texture) (i fc th : Nat),
      Effect.draw i fc th ∈ (drawIntermediate count ps j outFbs outTex src).1 →
      ∃ p, ps[i - j]? = some p ∧ j ≤ i ∧
        fc = framecountFor p.config.frame_count_mod count := by
  intro ps
  induction ps with
  | nil =>
    intro j outFbs outTex src i fc th h
    simp [drawIntermediate] at h
  | cons p ps ih =>
    intro j outFbs outTex src i fc th h
    simp only [drawIntermediate, List.mem_cons] at h
    rcases h with h | h
    · rw [Effect.draw.injEq] at h
      obtain ⟨rfl, rfl, _⟩ := h
      exact ⟨p, by simp, le_refl i, rfl⟩
    · obtain ⟨q, hq, hj, hfc⟩ := ih (j + 1) outFbs _ _ i fc th h
      refine ⟨q, ?_, by omega, hfc⟩
      have hij : i - j = (i - (j + 1)) + 1 := by omega
      rw [hij, List.getElem?_cons_succ]
      exact hq

/-- When `frame_count_mod` is a genuine u32 value, the frame count
handed to a draw is `count mod m` for positive `m` and the 32-bit
truncation of `count` otherwise. -/
theorem framecountFor_eq (m count : Nat) (hm : m < U32_MOD) :
    framecountFor m count =
      if 0 < m then count % m else count % U32_MOD := by
  unfold framecountFor
  by_cases h0 : 0 < m
  · rw [if_pos h0, if_pos h0]
    exact Nat.mod_eq_of_lt (lt_trans (Nat.mod_lt count h0) hm)
  · rw [if_neg h0, if_neg h0]

/-- The options-driven clear list contains no draw effect. -/
theorem clearEffects_no_draw (opts : Option FrameOptions)
    (fbs : List Gl3Framebuffer) (i fc th : Nat) :
    Effect.draw i fc th ∉
      (match opts with
       | some o =>
         if o.clear_history then
           fbs.map (fun fb : Gl3Framebuffer => Effect.clearFb fb.handle)
         else []
       | none => ([] : List Effect)) := by
  match opts with
  | none => simp
  | some o =>
    by_cases hch : o.clear_history
    · simp [hch]
    · simp [hch]

/-! ## C7 -/

def c7fbOut : Gl3Framebuffer :=
  { image := 2, handle := 3, size := ⟨64, 64⟩, format := 32856
  , max_levels := 1, mip_levels := 1, is_raw := false }

def c7fbFeed : Gl3Framebuffer :=
  { image := 4, handle := 6, size := ⟨64, 64⟩, format := 32856
  , max_levels := 1, mip_levels := 1, is_raw := false }

def c7tex : Texture :=
  { image := { handle := 0, format := 0, size := ⟨0, 0⟩
             , padded_size := ⟨0, 0⟩ }
  , filter := FilterMode.nearest, mip_filter := FilterMode.nearest
  , wrap_mode := WrapMode.clampToBorder }

def c7chain : FilterChain :=
  { passes := [dummyPass], passes_enabled := 1
  , output_framebuffers := [c7fbOut]
  , feedback_framebuffers := [c7fbFeed]
  , history_framebuffers := []
  , output_textures := [c7tex], feedback_textures := [c7tex]
  , history_textures := [] }

def c7vp : Viewport :=
  ⟨0, 0, Gl3Framebuffer.new_from_raw 1 5 32856 ⟨128, 128⟩ 1⟩

def c7input : GlImage :=
  { handle := 9, format := 32856, size := ⟨64, 64⟩, padded_size := ⟨0, 0⟩ }

def c7result : FilterChain :=
  { c7chain with
    output_framebuffers := [c7fbFeed]
  , feedback_framebuffers := [c7fbOut]
  , feedback_textures := [{ c7tex with image :=
      { handle := 4, format := 32856, size := ⟨64, 64⟩
      , padded_size := ⟨0, 0⟩ } }] }

/-- C7 counterexample: a single pass with `frame_count_mod = 0` and the
caller-supplied counter `count = 2^32`. The claim says the draw receives
`count` itself; the `as u32` cast in the source truncates it to
`count mod 2^32 = 0`. -/
theorem c7_framecount_counterexample :
    FilterChain.frame (fun _ _ => FRAMEBUFFER_COMPLETE)
        (fun _ _ _ => ⟨64, 64⟩) c7chain U32_MOD c7vp c7input none 50 =
      .ok (c7result,
        [Effect.bindVao, Effect.draw 0 0 5, Effect.unbindVao], 50) ∧
    (c7chain.passes.getD 0 dummyPass).config.frame_count_mod = 0 ∧
    (0 : Nat) ≠ U32_MOD := by decide

/-- C7 amended: every draw `frame` issues — intermediate or final —
for the pass at enabled index `i` carries the frame count
`framecountFor`, i.e. `count mod frame_count_mod` when the modulus is
positive and the 32-bit truncation `count mod 2^32` (not `count`
itself) otherwise; the moduli are u32 values, hence below `2^32`. -/
theorem c7_framecount_amended (status : Nat → Size → Nat)
    (resolve : Nat → Size → Size → Size) (c : FilterChain) (count : Nat)
    (vp : Viewport) (input : GlImage) (opts : Option FrameOptions)
    (ctr : Nat) (c' : FilterChain) (effs : List Effect) (ctr' : Nat)
    (i fc th : Nat)
    (hok : FilterChain.frame status resolve c count vp input opts ctr =
      .ok (c', effs, ctr'))
    (hmem : Effect.draw i fc th ∈ effs) :
    ∃ p, (c.passes.take c.passes_enabled)[i]? = some p ∧
      fc = framecountFor p.config.frame_count_mod count ∧
      (p.config.frame_count_mod < U32_MOD →
        fc = if 0 < p.config.frame_count_mod then
          count % p.config.frame_count_mod else count % U32_MOD) := by
  unfold FilterChain.frame at hok
  cases hps : c.passes.take c.passes_enabled with
  | nil =>
    rw [hps] at hok
    dsimp only at hok
    rw [Except.ok.injEq, Prod.mk.injEq, Prod.mk.injEq] at hok
    obtain ⟨_, heff, _⟩ := hok
    rw [← heff] at hmem
    exact absurd hmem (clearEffects_no_draw opts c.history_framebuffers i fc th)
  | cons p0 rest =>
    rw [hps] at hok
    dsimp only at hok
    obtain ⟨outFbs, fbFbs, ctr1, _, heff, _, _⟩ := frameEnabled_ok hok
    subst heff
    simp only [List.mem_append, List.mem_singleton] at hmem
    rcases hmem with ((((hmem | hmem) | hmem) | hmem) | hmem)
    · exact absurd hmem (clearEffects_no_draw opts c.history_framebuffers i fc th)
    · simp at hmem
    · obtain ⟨p, hp, _, hfc⟩ :=
        drawIntermediate_draw_mem count _ 0 _ _ _ i fc th hmem
      rw [Nat.sub_zero] at hp
      rw [List.dropLast_eq_take] at hp
      rcases Nat.lt_or_ge i ((p0 :: rest).length - 1) with hlt | hge
      · rw [List.getElem?_take, if_pos hlt] at hp
        refine ⟨p, hp, hfc, ?_⟩
        intro hm
        rw [hfc]
        exact framecountFor_eq _ _ hm
      · rw [List.getElem?_take, if_neg (by omega)] at hp
        exact absurd hp (by simp)
    · rw [Effect.draw.injEq] at hmem
      obtain ⟨rfl, rfl, _⟩ := hmem
      refine ⟨(p0 :: rest).getLast (List.cons_ne_nil p0 rest), ?_, rfl, ?_⟩
      · rw [← List.getLast?_eq_getElem?,
          List.getLast?_eq_getLast _ (List.cons_ne_nil p0 rest)]
      · intro hm
        exact framecountFor_eq _ _ hm
    · simp at hmem

theorem c7_framecount_witness :
    ∃ p, (c7chain.passes.take c7chain.passes_enabled)[0]? = some p ∧
      (5 : Nat) = framecountFor p.config.frame_count_mod 5 ∧
      (p.config.frame_count_mod < U32_MOD →
        (5 : Nat) = if 0 < p.config.frame_count_mod then
          5 % p.config.frame_count_mod else 5 % U32_MOD) :=
  c7_framecount_amended (fun _ _ => FRAMEBUFFER_COMPLETE)
    (fun _ _ _ => ⟨64, 64⟩) c7chain 5 c7vp c7input none 50 c7result
    [Effect.bindVao, Effect.draw 0 5 5, Effect.unbindVao] 50 0 5 5
    (by decide) (by decide)

/-! ## C5 -/

/-- The options-driven clear list counts zero draws. -/
theorem clearEffects_countP (opts : Option FrameOptions)
    (fbs : List Gl3Framebuffer) :
    (match opts with
      | some o =>
        if o.clear_history then
          fbs.map (fun fb : Gl3Framebuffer => Effect.clearFb fb.handle)
        else []
      | none => ([] : List Effect)).countP Effect.isDraw = 0 := by
  match opts with
  | none => rfl
  | some o =>
    by_cases hch : o.clear_history
    · simp only [hch, if_pos]
      rw [List.countP_eq_zero]
      intro e he
      rw [List.mem_map] at he
      obtain ⟨fb, _, rfl⟩ := he
      simp [Effect.isDraw]
    · simp [hch]

def c5o0 : Gl3Framebuffer :=
  { image := 11, handle := 21, size := ⟨64, 64⟩, format := 32856
  , max_levels := 1, mip_levels := 1, is_raw := false }

def c5o1 : Gl3Framebuffer := { c5o0 with image := 12, handle := 22 }

def c5o2 : Gl3Framebuffer := { c5o0 with image := 13, handle := 23 }

def c5fb0 : Gl3Framebuffer := { c5o0 with image := 31, handle := 41 }

def c5fb1 : Gl3Framebuffer := { c5o0 with image := 32, handle := 42 }

def c5fb2 : Gl3Framebuffer := { c5o0 with image := 33, handle := 43 }

def c5chain : FilterChain :=
  { passes := [dummyPass, dummyPass, dummyPass], passes_enabled := 1
  , output_framebuffers := [c5o0, c5o1, c5o2]
  , feedback_framebuffers := [c5fb0, c5fb1, c5fb2]
  , history_framebuffers := []
  , output_textures := [c7tex, c7tex, c7tex]
  , feedback_textures := [c7tex, c7tex, c7tex]
  , history_textures := [] }

def c5result : FilterChain :=
  { c5chain with
    output_framebuffers := [c5fb0, c5fb1, c5fb2]
  , feedback_framebuffers := [c5o0, c5o1, c5o2]
  , feedback_textures := [{ c7tex with image :=
      { handle := 31, format := 32856, size := ⟨64, 64⟩
      , padded_size := ⟨0, 0⟩ } }, c7tex, c7tex] }

/-- C5 counterexample: a 3-pass chain run with `passes_enabled = 1`.
Exactly one draw is issued (that part of the claim holds), but the
end-of-frame swap exchanges the output and feedback framebuffers at
ALL indices: the output framebuffers at indices 1 and 2 change to the
former feedback framebuffers, contradicting the claim that only index 0
is affected. -/
theorem c5_swap_counterexample :
    FilterChain.frame (fun _ _ => FRAMEBUFFER_COMPLETE)
        (fun _ _ _ => ⟨64, 64⟩) c5chain 0 c7vp c7input none 80 =
      .ok (c5result,
        [Effect.bindVao, Effect.draw 0 0 5, Effect.unbindVao], 80) ∧
    [Effect.bindVao, Effect.draw 0 0 5,
      Effect.unbindVao].countP Effect.isDraw = 1 ∧
    c5result.output_framebuffers.getD 1 dummyFb ≠
      c5chain.output_framebuffers.getD 1 dummyFb ∧
    c5result.output_framebuffers.getD 2 dummyFb ≠
      c5chain.output_framebuffers.getD 2 dummyFb := by decide

/-- C5 amended: on a 3-pass chain with `passes_enabled = 1`, a
successful `frame` issues exactly one draw, and the end-of-frame swap
exchanges output and feedback framebuffers at EVERY index — in
particular the framebuffers at indices 1 and 2 are swapped too, not
left in place. -/
theorem c5_swap_amended (status : Nat → Size → Nat)
    (resolve : Nat → Size → Size → Size) (c : FilterChain) (count : Nat)
    (vp : Viewport) (input : GlImage) (opts : Option FrameOptions)
    (ctr : Nat) (c' : FilterChain) (effs : List Effect) (ctr' : Nat)
    (pA pB pC : FilterPass) (o0 o1 o2 f0 f1 f2 : Gl3Framebuffer)
    (hen : c.passes_enabled = 1)
    (hpasses : c.passes = [pA, pB, pC])
    (hout : c.output_framebuffers = [o0, o1, o2])
    (hfb : c.feedback_framebuffers = [f0, f1, f2])
    (hok : FilterChain.frame status resolve c count vp input opts ctr =
      .ok (c', effs, ctr')) :
    effs.countP Effect.isDraw = 1 ∧
    c'.output_framebuffers[1]? = some f1 ∧
    c'.output_framebuffers[2]? = some f2 ∧
    c'.feedback_framebuffers[1]? = some o1 ∧
    c'.feedback_framebuffers[2]? = some o2 := by
  have hps : c.passes.take c.passes_enabled = [pA] := by
    rw [hen, hpasses]
    rfl
  unfold FilterChain.frame at hok
  rw [hps] at hok
  dsimp only at hok
  obtain ⟨outFbs, fbFbs, ctr1, hres, heff, ho, hf⟩ := frameEnabled_ok hok
  rw [hout, hfb] at hres
  unfold rescalePasses at hres
  dsimp only at hres
  simp only [List.getD_cons_zero] at hres
  cases hs1 : Gl3Framebuffer.scale status o0
      (resolve 0 input.size vp.output.size) pA.formatOut ctr with
  | error e => rw [hs1] at hres; exact absurd hres (by simp)
  | ok tr1 =>
    obtain ⟨fbA, szA, ctrA⟩ := tr1
    rw [hs1] at hres
    dsimp only at hres
    cases hs2 : Gl3Framebuffer.scale status f0
        (resolve 0 input.size vp.output.size) pA.formatOut ctrA with
    | error e => rw [hs2] at hres; exact absurd hres (by simp)
    | ok tr2 =>
      obtain ⟨fbB, szB, ctrB⟩ := tr2
      rw [hs2] at hres
      dsimp only at hres
      unfold rescalePasses at hres
      rw [Except.ok.injEq, Prod.mk.injEq, Prod.mk.injEq] at hres
      obtain ⟨hofb, hffb, _⟩ := hres
      subst hofb
      subst hffb
      refine ⟨?_, ?_, ?_, ?_, ?_⟩
      · rw [heff]
        simp [List.countP_append, List.countP_cons, Effect.isDraw,
          clearEffects_countP, drawIntermediate]
      · rw [ho]; rfl
      · rw [ho]; rfl
      · rw [hf]; rfl
      · rw [hf]; rfl

theorem c5_swap_witness :
    [Effect.bindVao, Effect.draw 0 0 5,
      Effect.unbindVao].countP Effect.isDraw = 1 ∧
    c5result.output_framebuffers[1]? = some c5fb1 ∧
    c5result.output_framebuffers[2]? = some c5fb2 ∧
    c5result.feedback_framebuffers[1]? = some c5o1 ∧
    c5result.feedback_framebuffers[2]? = some c5o2 :=
  c5_swap_amended (fun _ _ => FRAMEBUFFER_COMPLETE)
    (fun _ _ _ => ⟨64, 64⟩) c5chain 0 c7vp c7input none 80 c5result
    [Effect.bindVao, Effect.draw 0 0 5, Effect.unbindVao] 80
    dummyPass dummyPass dummyPass c5o0 c5o1 c5o2 c5fb0 c5fb1 c5fb2
    (by decide) (by decide) (by decide) (by decide) (by decide)

end Librashader
